import Mathlib

/-!
Shallow embedding of the Football-Analyze-Project pipeline
(`catching_data.py`, `exporting_data.py`) and proofs about it.

Python/pandas values are modelled by the inductive `Value`; Python
exceptions by `PyErr`; fallible Python expressions by `Except PyErr`.
DataFrames are a column-name list plus a list of rows.
-/

/-- A Python/JSON value as it flows through the pipeline: JSON scalars,
arrays and objects, plus datetime instants (`time`, an abstract tick count,
used by the exporter's timestamp column). -/
inductive Value where
  | null
  | bool (b : Bool)
  | int (n : Int)
  | str (s : String)
  | time (t : Int)
  | list (xs : List Value)
  | dict (fs : List (String × Value))

/-- Python exceptions that the embedded code can raise or catch. -/
inductive PyErr where
  | key (k : String)
  | idx
  | type (msg : String)
  | attr (msg : String)
  | value (msg : String)
  deriving DecidableEq, Repr

mutual
/-- Structural equality on `Value`, mirroring Python `==` on values of the
same constructor (the numeric `bool`/`int` cross-case is handled separately
in `pyEq`). -/
def Value.beq : Value → Value → Bool
  | .null, .null => true
  | .bool a, .bool b => a == b
  | .int a, .int b => a == b
  | .str a, .str b => a == b
  | .time a, .time b => a == b
  | .list xs, .list ys => valListBeq xs ys
  | .dict fs, .dict gs => valFieldsBeq fs gs
  | _, _ => false

/-- Elementwise `Value.beq` on lists. -/
def valListBeq : List Value → List Value → Bool
  | [], [] => true
  | x :: xs, y :: ys => Value.beq x y && valListBeq xs ys
  | _, _ => false

/-- Elementwise `Value.beq` on object fields. -/
def valFieldsBeq : List (String × Value) → List (String × Value) → Bool
  | [], [] => true
  | (k, v) :: fs, (l, w) :: gs => k == l && Value.beq v w && valFieldsBeq fs gs
  | _, _ => false
end

instance : BEq Value := ⟨Value.beq⟩

/-- Python truthiness: `None`, `False`, `0`, `""`, `[]` and the empty dict
are falsy, everything else is truthy. -/
def Value.falsy : Value → Bool
  | .null => true
  | .bool b => !b
  | .int n => n == 0
  | .str s => s.isEmpty
  | .time _ => false
  | .list xs => xs.isEmpty
  | .dict fs => fs.isEmpty

/-- Python truthiness, positive form. -/
def Value.truthy (v : Value) : Bool := !v.falsy

/-- Python subscript with a string key, `v[k]`: dict lookup raising
`KeyError` when the key is absent; every other receiver raises `TypeError`
(string indices must be integers, lists are indexed by integers, scalars
are not subscriptable). -/
def Value.getKey : Value → String → Except PyErr Value
  | .dict fs, k =>
    match fs.lookup k with
    | some v => .ok v
    | none => .error (.key k)
  | _, _ => .error (.type "not subscriptable with a string key")

/-- Python subscript with a non-negative integer, `v[i]`: list indexing
raising `IndexError` out of range; string indexing yields a one-character
string; a dict with string keys raises `KeyError` on an integer key;
scalars raise `TypeError`. -/
def Value.getIdx : Value → Nat → Except PyErr Value
  | .list xs, i =>
    match xs.get? i with
    | some v => .ok v
    | none => .error .idx
  | .str s, i =>
    match s.toList.get? i with
    | some c => .ok (.str c.toString)
    | none => .error .idx
  | .dict _, i => .error (.key (toString i))
  | _, _ => .error (.type "not subscriptable")

/-- Python `d.get(k, default)`: only dicts have the `get` attribute, any
other receiver raises `AttributeError`. -/
def Value.dictGet : Value → String → Value → Except PyErr Value
  | .dict fs, k, dflt => .ok ((fs.lookup k).getD dflt)
  | _, _, _ => .error (.attr "object has no attribute get")

/-- Substring test used by `in` on strings. -/
def strContainsSub (t s : String) : Bool :=
  s.isEmpty || (t.splitOn s).length ≥ 2

/-- Python membership `k in v` for a string `k`: key membership for dicts,
element membership for lists, substring test for strings; scalars raise
`TypeError`. -/
def Value.containsStr : Value → String → Except PyErr Bool
  | .dict fs, k => .ok (fs.lookup k).isSome
  | .list xs, k => .ok (xs.any (fun v => Value.beq v (.str k)))
  | .str t, k => .ok (strContainsSub t k)
  | _, _ => .error (.type "argument is not iterable")

/-- Python iteration `for x in v`: lists yield their elements, dicts their
keys, strings their characters; scalars raise `TypeError`. -/
def Value.toIter : Value → Except PyErr (List Value)
  | .list xs => .ok xs
  | .dict fs => .ok (fs.map (fun f => .str f.1))
  | .str s => .ok (s.toList.map (fun c => .str c.toString))
  | _ => .error (.type "object is not iterable")

/-- Python `a or b`: `a` when truthy, else `b`. -/
def pyOr (a b : Value) : Value := if a.truthy then a else b

/-- Numeric view of a value: Python treats `bool` as an integer. -/
def Value.toNum? : Value → Option Int
  | .int n => some n
  | .bool b => some (if b then 1 else 0)
  | _ => none

/-- Python `==` (total, never raises): numeric cross-comparison between
ints and bools, structural equality otherwise. -/
def pyEq (a b : Value) : Bool :=
  match a.toNum?, b.toNum? with
  | some x, some y => x == y
  | _, _ => Value.beq a b

/-- Python `v < m` against an integer: defined for numeric values, raises
`TypeError` otherwise (as pandas object-dtype comparisons do). -/
def pyLtInt (v : Value) (m : Int) : Except PyErr Bool :=
  match v.toNum? with
  | some x => .ok (decide (x < m))
  | none => .error (.type "comparison not supported")

/-- Python `v <= m` against an integer. -/
def pyLeInt (v : Value) (m : Int) : Except PyErr Bool :=
  match v.toNum? with
  | some x => .ok (decide (x ≤ m))
  | none => .error (.type "comparison not supported")

/-- Python `v * m` for an integer `m`: numeric product, sequence
repetition for strings and lists, `TypeError` otherwise. -/
def pyMulInt (v : Value) (m : Int) : Except PyErr Value :=
  match v with
  | .int n => .ok (.int (n * m))
  | .bool b => .ok (.int ((if b then (1 : Int) else 0) * m))
  | .str s => .ok (.str (String.join (List.replicate m.toNat s)))
  | .list xs => .ok (.list (List.flatten (List.replicate m.toNat xs)))
  | _ => .error (.type "unsupported operand for mul")

/-- Python `a + b`: numeric sum (bools count as ints), string and list
concatenation, `TypeError` on mixed operands. -/
def pyAdd (a b : Value) : Except PyErr Value :=
  match a.toNum?, b.toNum? with
  | some x, some y => .ok (.int (x + y))
  | _, _ =>
    match a, b with
    | .str s, .str t => .ok (.str (s ++ t))
    | .list xs, .list ys => .ok (.list (xs ++ ys))
    | _, _ => .error (.type "unsupported operand for add")

/-- A pandas DataFrame: ordered column names and rows of cells, each row
aligned positionally with the column list. -/
structure DataFrame where
  colNames : List String
  rows : List (List Value)

/-- Well-formedness of a frame: no duplicate column labels and every row
has one cell per column. -/
def DataFrame.wf (df : DataFrame) : Prop :=
  df.colNames.Nodup ∧ ∀ r ∈ df.rows, r.length = df.colNames.length

/-- Column selection `df[c]`: the cells of column `c` row by row,
`KeyError` when the column is absent. -/
def DataFrame.getCol (df : DataFrame) (c : String) : Except PyErr (List Value) :=
  match df.colNames.findIdx? (· == c) with
  | some i => .ok (df.rows.map (fun r => r.getD i .null))
  | none => .error (.key c)

/-- Number of rows, `len(df)`. -/
def DataFrame.len (df : DataFrame) : Nat := df.rows.length

/-- Pandas `series.duplicated().any()`: does any value occur twice? -/
def hasDup : List Value → Bool
  | [] => false
  | x :: xs => xs.any (fun y => Value.beq y x) || hasDup xs

/-- Argument passed to a validator: a DataFrame, or some non-DataFrame
object (attribute/column access on the latter raises). -/
inductive PyInput where
  | frame (df : DataFrame)
  | notFrame

/-- Elementwise pandas series operation against a scalar: Python raises on
the first cell where the operation is undefined. -/
def seriesMapE {α : Type} (f : Value → Except PyErr α) :
    List Value → Except PyErr (List α)
  | [] => .ok []
  | v :: vs =>
    match f v with
    | .error e => .error e
    | .ok b =>
      match seriesMapE f vs with
      | .error e => .error e
      | .ok bs => .ok (b :: bs)

/-- Elementwise pandas series operation between two aligned series. -/
def seriesZipE (f : Value → Value → Except PyErr Value) :
    List Value → List Value → Except PyErr (List Value)
  | [], _ => .ok []
  | _ :: _, [] => .ok []
  | a :: as, b :: bs =>
    match f a b with
    | .error e => .error e
    | .ok v =>
      match seriesZipE f as bs with
      | .error e => .error e
      | .ok vs => .ok (v :: vs)

/-- Unwrap a validator body the way its `try/except` does: an uncaught
internal error is logged and reported as `False`. -/
def exceptToBool : Except PyErr Bool → Bool
  | .ok b => b
  | .error _ => false

/-- Required columns of the standings table (`validate_standings`). -/
def standingsRequired : List String :=
  ["rank", "team", "points", "played", "wins", "draws", "losses"]

/-- Body of `validate_standings` (exporting_data.py): required columns,
row-count warning (no effect on the result), duplicate teams, negative
points, `points == wins*3 + draws`, `played == wins + draws + losses`. -/
def validateStandingsBody : PyInput → Except PyErr Bool
  | .notFrame => .error (.attr "object has no attribute columns")
  | .frame df =>
    let missing := standingsRequired.filter (fun c => !(df.colNames.contains c))
    if !missing.isEmpty then .ok false
    else
      match df.getCol "team" with
      | .error e => .error e
      | .ok team =>
        if hasDup team then .ok false
        else
          match df.getCol "points" with
          | .error e => .error e
          | .ok points =>
            match seriesMapE (fun v => pyLtInt v 0) points with
            | .error e => .error e
            | .ok negs =>
              if negs.any id then .ok false
              else
                match df.getCol "wins", df.getCol "draws" with
                | .error e, _ => .error e
                | _, .error e => .error e
                | .ok wins, .ok draws =>
                  match seriesMapE (fun v => pyMulInt v 3) wins with
                  | .error e => .error e
                  | .ok w3 =>
                    match seriesZipE pyAdd w3 draws with
                    | .error e => .error e
                    | .ok calcPts =>
                      if !((List.zipWith pyEq points calcPts).all id) then
                        .ok false
                      else
                        match df.getCol "losses", df.getCol "played" with
                        | .error e, _ => .error e
                        | _, .error e => .error e
                        | .ok losses, .ok played =>
                          match seriesZipE pyAdd wins draws with
                          | .error e => .error e
                          | .ok wd =>
                            match seriesZipE pyAdd wd losses with
                            | .error e => .error e
                            | .ok total =>
                              if !((List.zipWith pyEq played total).all id) then
                                .ok false
                              else .ok true

/-- `validate_standings` with its outer `try/except` catching everything. -/
def validate_standings (inp : PyInput) : Bool :=
  exceptToBool (validateStandingsBody inp)

/-- Required columns of the scorers table (`validate_top_scorers`). -/
def scorersRequired : List String := ["player", "team", "goals", "appearances"]

/-- Required columns of the assists table (`validate_top_assists`). -/
def assistsRequired : List String := ["player", "team", "assists", "appearances"]

/-- Shared body of the scorers/assists validators: required columns,
non-empty table, metric column non-negative, appearances positive,
duplicate players are a warning only. -/
def validateMetricBody (required : List String) (metric : String) :
    PyInput → Except PyErr Bool
  | .notFrame => .error (.attr "object has no attribute columns")
  | .frame df =>
    let missing := required.filter (fun c => !(df.colNames.contains c))
    if !missing.isEmpty then .ok false
    else if df.len == 0 then .ok false
    else
      match df.getCol metric with
      | .error e => .error e
      | .ok ms =>
        match seriesMapE (fun v => pyLtInt v 0) ms with
        | .error e => .error e
        | .ok negs =>
          if negs.any id then .ok false
          else
            match df.getCol "appearances" with
            | .error e => .error e
            | .ok apps =>
              match seriesMapE (fun v => pyLeInt v 0) apps with
              | .error e => .error e
              | .ok bad =>
                if bad.any id then .ok false
                else
                  match df.getCol "player" with
                  | .error e => .error e
                  | .ok _players => .ok true

/-- Body of `validate_top_scorers` (exporting_data.py). -/
def validateTopScorersBody : PyInput → Except PyErr Bool :=
  validateMetricBody scorersRequired "goals"

/-- `validate_top_scorers` with its outer `try/except`. -/
def validate_top_scorers (inp : PyInput) : Bool :=
  exceptToBool (validateTopScorersBody inp)

/-- Body of `validate_top_assists` (exporting_data.py). -/
def validateTopAssistsBody : PyInput → Except PyErr Bool :=
  validateMetricBody assistsRequired "assists"

/-- `validate_top_assists` with its outer `try/except`. -/
def validate_top_assists (inp : PyInput) : Bool :=
  exceptToBool (validateTopAssistsBody inp)

/-- One attempt's observable outcome at the transport layer: a timeout, a
transport-level failure (`RequestException`), or an HTTP response with a
status code and a deserialized JSON body (`none` when the body does not
deserialize). -/
inductive AttemptOutcome where
  | timeout
  | transportError
  | http (status : Nat) (body : Option Value)

/-- Observable behaviour of one `api_get` call: the returned payload (or
`None`), how many attempts were made, and the sequence of `sleep` calls in
seconds. -/
structure FetchResult where
  result : Option Value
  attemptsUsed : Nat
  sleeps : List Nat

/-- Envelope handling of `api_get` after a non-error HTTP response
(catching_data.py lines 66 to 76): missing `response` field returns
`None`; a present, truthy `errors` field returns `None`; otherwise the
`response` field is returned. Any `TypeError` raised by the membership or
subscript operations is caught by the blanket `except Exception` and also
yields `None`. -/
def processBody (data : Value) : Option Value :=
  match data.containsStr "response" with
  | .error _ => none
  | .ok false => none
  | .ok true =>
    match data.containsStr "errors" with
    | .error _ => none
    | .ok true =>
      match data.getKey "errors" with
      | .error _ => none
      | .ok e =>
        if e.truthy then none
        else
          match data.getKey "response" with
          | .error _ => none
          | .ok r => some r
    | .ok false =>
      match data.getKey "response" with
      | .error _ => none
      | .ok r => some r

/-- The retry loop of `api_get` starting at a given attempt index, with
`fuel` remaining loop iterations (`fuel = maxRetries - attempt` at every
call site, so exhausting `fuel` is exactly the `for` loop ending)
(catching_data.py lines 49 to 93). Status 429 sleeps a fixed 60 seconds
and continues; other statuses at or above 400 raise in
`raise_for_status`, are caught as `RequestException`, sleep `2^attempt`
(except on the final attempt) and continue; timeouts and transport errors
do the same; a deserialization failure or envelope failure returns `None`
immediately; falling off the loop returns `None`. -/
def apiGetAux (outcomes : Nat → AttemptOutcome) (maxRetries : Nat) :
    (attempt fuel : Nat) → FetchResult
  | _, 0 => { result := none, attemptsUsed := 0, sleeps := [] }
  | attempt, fuel + 1 =>
    match outcomes attempt with
    | .timeout =>
      let rest := apiGetAux outcomes maxRetries (attempt + 1) fuel
      { result := rest.result, attemptsUsed := rest.attemptsUsed + 1,
        sleeps := (if attempt < maxRetries - 1 then [2 ^ attempt] else []) ++ rest.sleeps }
    | .transportError =>
      let rest := apiGetAux outcomes maxRetries (attempt + 1) fuel
      { result := rest.result, attemptsUsed := rest.attemptsUsed + 1,
        sleeps := (if attempt < maxRetries - 1 then [2 ^ attempt] else []) ++ rest.sleeps }
    | .http status body =>
      if status == 429 then
        let rest := apiGetAux outcomes maxRetries (attempt + 1) fuel
        { result := rest.result, attemptsUsed := rest.attemptsUsed + 1,
          sleeps := 60 :: rest.sleeps }
      else if 400 ≤ status then
        let rest := apiGetAux outcomes maxRetries (attempt + 1) fuel
        { result := rest.result, attemptsUsed := rest.attemptsUsed + 1,
          sleeps := (if attempt < maxRetries - 1 then [2 ^ attempt] else []) ++ rest.sleeps }
      else
        match body with
        | none => { result := none, attemptsUsed := 1, sleeps := [] }
        | some data => { result := processBody data, attemptsUsed := 1, sleeps := [] }

/-- `api_get` from its first attempt: the loop runs `maxRetries`
iterations, so the remaining-iteration count starts at `maxRetries`. -/
def api_get (outcomes : Nat → AttemptOutcome) (maxRetries : Nat) : FetchResult :=
  apiGetAux outcomes maxRetries 0 maxRetries

/-- Outcome of processing one record inside a parser loop: a produced row,
a skipped record (`continue`), or an uncaught exception. -/
inductive RecOutcome where
  | row (r : List Value)
  | skip
  | err (e : PyErr)

/-- The parser loops: process records in order, accumulate produced rows,
drop skipped records, and propagate the first uncaught exception. -/
def collectRows (step : Value → RecOutcome) : List Value → Except PyErr (List (List Value))
  | [] => .ok []
  | t :: ts =>
    match step t with
    | .row r =>
      match collectRows step ts with
      | .ok rest => .ok (r :: rest)
      | .error e => .error e
    | .skip => collectRows step ts
    | .err e => .error e

/-- Column order of the parsed standings table. -/
def standingsCols : List String :=
  ["rank", "team", "points", "played", "wins", "draws", "losses",
   "goals_for", "goals_against", "goal_difference"]

/-- Field extraction for one standings record (catching_data.py lines 126
to 137), in the source's evaluation order. -/
def standingsRecord (t : Value) : Except PyErr (List Value) := do
  let rank ← t.getKey "rank"
  let team ← (← t.getKey "team").getKey "name"
  let points ← t.getKey "points"
  let allv ← t.getKey "all"
  let played ← allv.getKey "played"
  let wins ← allv.getKey "win"
  let draws ← allv.getKey "draw"
  let losses ← allv.getKey "lose"
  let goals ← allv.getKey "goals"
  let gf ← goals.getKey "for"
  let ga ← goals.getKey "against"
  let gd ← t.getKey "goalsDiff"
  return [rank, team, points, played, wins, draws, losses, gf, ga, gd]

/-- One iteration of the standings loop: only `KeyError` is caught and
turned into a skip (`except KeyError: continue`); other exceptions
propagate. -/
def standingsStep (t : Value) : RecOutcome :=
  match standingsRecord t with
  | .ok r => .row r
  | .error (.key _) => .skip
  | .error e => .err e

/-- The structure probe of `get_standings`
(`data[0].get("league", {}).get("standings")`, line 113). -/
def standingsProbe (d : Value) : Except PyErr Value := do
  let first ← d.getIdx 0
  let league ← first.dictGet "league" (.dict [])
  league.dictGet "standings" .null

/-- The table extraction of `get_standings`
(`data[0]["league"]["standings"][0]`, line 117). -/
def standingsTable (d : Value) : Except PyErr Value := do
  let first ← d.getIdx 0
  let league ← first.getKey "league"
  let standings ← league.getKey "standings"
  standings.getIdx 0

/-- `get_standings` applied to the value returned by `api_get` (`none`
models the `None` failure signal). `raise ValueError` is modelled as
`.error (.value msg)`; the outer `try/except` re-raises, so it does not
change the returned value. -/
def get_standings (data : Option Value) : Except PyErr DataFrame :=
  match data with
  | none => .error (.value "Failed to fetch standings data")
  | some d =>
    if d.falsy then .error (.value "Failed to fetch standings data")
    else
      match standingsProbe d with
      | .error e => .error e
      | .ok probe =>
        if probe.falsy then .error (.value "Invalid standings response")
        else
          match standingsTable d with
          | .error e => .error e
          | .ok table =>
            if table.falsy then .error (.value "No teams in standings")
            else
              match table.toIter with
              | .error e => .error e
              | .ok items =>
                match collectRows standingsStep items with
                | .error e => .error e
                | .ok rows =>
                  if rows.isEmpty then .error (.value "No valid team data parsed")
                  else .ok ⟨standingsCols, rows⟩

/-- Field extraction for one player record (catching_data.py lines 173 to
184 and 220 to 231): read the first statistics block, skip the player
(`.ok none`) when the target metric under `goals` is null, otherwise
build the row, defaulting a falsy appearance count to 0 via `or 0`. -/
def playerRecord (metric : String) (p : Value) : Except PyErr (Option (List Value)) := do
  let stats ← (← p.getKey "statistics").getIdx 0
  let target ← (← stats.getKey "goals").getKey metric
  match target with
  | .null => return none
  | _ => do
    let player ← (← p.getKey "player").getKey "name"
    let team ← (← stats.getKey "team").getKey "name"
    let apps ← (← stats.getKey "games").getKey "appearences"
    return some [player, team, target, pyOr apps (.int 0)]

/-- One iteration of the scorers loop: `KeyError` and `IndexError` are
caught and turned into a skip; other exceptions propagate. -/
def scorerStep (p : Value) : RecOutcome :=
  match playerRecord "total" p with
  | .ok (some r) => .row r
  | .ok none => .skip
  | .error (.key _) => .skip
  | .error .idx => .skip
  | .error e => .err e

/-- One iteration of the assists loop, analogous to `scorerStep`. -/
def assistStep (p : Value) : RecOutcome :=
  match playerRecord "assists" p with
  | .ok (some r) => .row r
  | .ok none => .skip
  | .error (.key _) => .skip
  | .error .idx => .skip
  | .error e => .err e

/-- Shared shape of `get_top_scorers` and `get_top_assists`: fail on a
falsy payload, iterate the records, fail when no rows survive. -/
def playersParse (step : Value → RecOutcome) (cols : List String)
    (fetchMsg parseMsg : String) (data : Option Value) : Except PyErr DataFrame :=
  match data with
  | none => .error (.value fetchMsg)
  | some d =>
    if d.falsy then .error (.value fetchMsg)
    else
      match d.toIter with
      | .error e => .error e
      | .ok items =>
        match collectRows step items with
        | .error e => .error e
        | .ok rows =>
          if rows.isEmpty then .error (.value parseMsg)
          else .ok ⟨cols, rows⟩

/-- Column order of the parsed scorers table. -/
def scorersCols : List String := ["player", "team", "goals", "appearances"]

/-- Column order of the parsed assists table. -/
def assistsCols : List String := ["player", "team", "assists", "appearances"]

/-- `get_top_scorers` applied to the value returned by `api_get`. -/
def get_top_scorers (data : Option Value) : Except PyErr DataFrame :=
  playersParse scorerStep scorersCols
    "Failed to fetch top scorers data" "No valid top scorers data parsed" data

/-- `get_top_assists` applied to the value returned by `api_get`. -/
def get_top_assists (data : Option Value) : Except PyErr DataFrame :=
  playersParse assistStep assistsCols
    "Failed to fetch top assists data" "No valid top assists data parsed" data

/-- Index of a column label in a frame. -/
def colIndex (df : DataFrame) (c : String) : Option Nat :=
  df.colNames.findIdx? (· == c)

/-- Pandas scalar column assignment `df[c] = v`: overwrite the column in
place when it exists, else append it, giving every row the same value. -/
def setColScalar (df : DataFrame) (c : String) (v : Value) : DataFrame :=
  match colIndex df c with
  | some i => ⟨df.colNames, df.rows.map (fun r => r.set i v)⟩
  | none => ⟨df.colNames ++ [c], df.rows.map (fun r => r ++ [v])⟩

/-- Cell-wise transformation of an existing column. -/
def mapColCells (df : DataFrame) (c : String) (f : Value → Value) : DataFrame :=
  match colIndex df c with
  | some i => ⟨df.colNames, df.rows.map (fun r => r.set i (f (r.getD i .null)))⟩
  | none => df

/-- Normalization applied to an existing `exported_at` cell
(exporting_data.py lines 195 to 201): a timezone-aware datetime is
converted to the same naive UTC instant; `pd.to_datetime` turns an
integer into a datetime; other values are left to best effort. -/
def normalizeTs : Value → Value
  | .time t => .time t
  | .int n => .time n
  | v => v

/-- Observable behaviour of one `overwrite` call: the caller's dataframe
object after the call, the frame handed to `to_sql` (when the database
write happens), and the boolean return value. -/
structure OverwriteResult where
  callerFrame : DataFrame
  sink : Option DataFrame
  ret : Bool

/-- The frame `overwrite` builds before writing (exporting_data.py lines
189 to 201): when `exported_at` is absent, a copy gains that column with
the single current UTC instant `now` in every row; when present, the
copy's column is normalized cell by cell. -/
def exportFrame (df : DataFrame) (now : Int) : DataFrame :=
  if (colIndex df "exported_at").isNone then
    setColScalar df "exported_at" (.time now)
  else
    mapColCells df "exported_at" normalizeTs

/-- `overwrite` (exporting_data.py lines 186 to 225). Both branches start
with `df = df.copy()`, which rebinds the local name to a fresh copy, so
the caller's object is never written; the copy with the timestamp column
is handed to the drop+`to_sql` transaction, whose success is the
environment bit `sinkOk`; any database failure is caught and reported as
`False`. -/
def overwrite (df : DataFrame) (now : Int) (sinkOk : Bool) : OverwriteResult :=
  let df2 := exportFrame df now
  if sinkOk then ⟨df, some df2, true⟩ else ⟨df, none, false⟩

/-- Environment of one pipeline run: whether the database engine can be
created, the payload each endpoint's `api_get` call produced, the clock,
and whether the database write for each destination table succeeds. -/
structure PipelineEnv where
  engineOk : Bool
  standingsApi : Option Value
  scorersApi : Option Value
  assistsApi : Option Value
  now : Int
  sinkOk : String → Bool

/-- One guarded dataset block of `run_pipeline`: fetch+parse (an exception
is caught and counts as failure), then validate, then export via
`overwrite`; the block's success feeds `pipeline_success`. -/
def processDataset (env : PipelineEnv) (fetched : Except PyErr DataFrame)
    (validate : PyInput → Bool) (table : String) : Bool :=
  match fetched with
  | .error _ => false
  | .ok df =>
    if validate (.frame df) then (overwrite df env.now (env.sinkOk table)).ret
    else false

/-- `run_pipeline` (exporting_data.py lines 230 to 306): returns the final
`pipeline_success` flag and the list of datasets whose processing block
was entered, in order. A failure to create the engine is caught by the
outer handler and returns `False` with no dataset processed. -/
def run_pipeline (env : PipelineEnv) : Bool × List String :=
  if env.engineOk then
    let ok1 := processDataset env (get_standings env.standingsApi)
      validate_standings "epl_standings"
    let ok2 := processDataset env (get_top_scorers env.scorersApi)
      validate_top_scorers "epl_top_scorers"
    let ok3 := processDataset env (get_top_assists env.assistsApi)
      validate_top_assists "epl_top_assists"
    (ok1 && ok2 && ok3, ["standings", "scorers", "assists"])
  else (false, [])

/-- The entry point `exit(0 if success else 1)`. -/
def pipelineExitCode (env : PipelineEnv) : Nat :=
  if (run_pipeline env).1 then 0 else 1

/-- An attempt outcome that consumes a unit of the retry budget without
producing a payload: timeout, transport failure, or any HTTP error status
(429 included). -/
def consumesBudget : AttemptOutcome → Bool
  | .timeout => true
  | .transportError => true
  | .http status _ => decide (400 ≤ status)

/-- Exhausting the loop on budget-consuming outcomes yields `None` and
uses the whole remaining budget. -/
theorem apiGetAux_exhaust (outcomes : Nat → AttemptOutcome) (maxRetries : Nat) :
    ∀ fuel attempt,
      (∀ i, attempt ≤ i → i < attempt + fuel → consumesBudget (outcomes i) = true) →
      (apiGetAux outcomes maxRetries attempt fuel).result = none ∧
      (apiGetAux outcomes maxRetries attempt fuel).attemptsUsed = fuel := by
  intro fuel
  induction fuel with
  | zero => exact fun attempt _ => ⟨rfl, rfl⟩
  | succ n ih =>
    intro attempt h
    have hc := h attempt le_rfl (by omega)
    have hr := ih (attempt + 1) (fun i h1 h2 => h i (by omega) (by omega))
    cases ho : outcomes attempt with
    | timeout =>
      simp only [apiGetAux, ho]
      exact ⟨hr.1, by rw [hr.2]⟩
    | transportError =>
      simp only [apiGetAux, ho]
      exact ⟨hr.1, by rw [hr.2]⟩
    | http status body =>
      rw [ho] at hc
      simp only [consumesBudget, decide_eq_true_eq] at hc
      by_cases h429 : status = 429
      · simp only [apiGetAux, ho, h429]
        norm_num
        exact ⟨hr.1, by rw [hr.2]⟩
      · have hb : (status == 429) = false := by
          simp [h429]
        have h400 : (400 ≤ status) = True := by simp [hc]
        simp only [apiGetAux, ho, hb, h400, Bool.false_eq_true, if_false, if_true]
        exact ⟨hr.1, by rw [hr.2]⟩

/-- C3: with a 3-attempt budget, two 429 responses followed by a valid
payload make `api_get` return the payload's results with all three
attempts used and two fixed 60-second waits; and whenever every attempt
in the budget is consumed without a successful payload (timeout,
transport failure, or an HTTP error status such as 429), `api_get`
returns the failure signal `none` — it is a total function, so it cannot
raise — after using exactly `maxRetries` attempts. -/
theorem api_get_attempt_budget :
    (∀ (outcomes : Nat → AttemptOutcome) (b0 b1 : Option Value)
        (payload results : Value),
      outcomes 0 = .http 429 b0 → outcomes 1 = .http 429 b1 →
      outcomes 2 = .http 200 (some payload) → processBody payload = some results →
      api_get outcomes 3 =
        { result := some results, attemptsUsed := 3, sleeps := [60, 60] }) ∧
    (∀ (outcomes : Nat → AttemptOutcome) (maxRetries : Nat),
      (∀ i, i < maxRetries → consumesBudget (outcomes i) = true) →
      (api_get outcomes maxRetries).result = none ∧
      (api_get outcomes maxRetries).attemptsUsed = maxRetries) := by
  constructor
  · intro outcomes b0 b1 payload results h0 h1 h2 hp
    simp [api_get, apiGetAux, h0, h1, h2, hp]
  · intro outcomes maxRetries h
    exact apiGetAux_exhaust outcomes maxRetries maxRetries 0
      (fun i h1 h2 => h i (by omega))

/-- Witness for C3: two rate limits then a well-formed payload return the
results list after three attempts, and three rate limits exhaust the
budget into `none`. -/
theorem api_get_attempt_budget_witness :
    api_get (fun i => if i == 2 then .http 200 (some (.dict [("response", .list [.int 7])]))
        else .http 429 none) 3 =
      { result := some (.list [.int 7]), attemptsUsed := 3, sleeps := [60, 60] } ∧
    (api_get (fun _ => .http 429 none) 3).result = none ∧
    (api_get (fun _ => .http 429 none) 3).attemptsUsed = 3 := by
  refine ⟨api_get_attempt_budget.1 _ none none _ (.list [.int 7]) rfl rfl rfl rfl, ?_⟩
  exact api_get_attempt_budget.2 (fun _ => .http 429 none) 3 (fun i _ => rfl)

/-- Attempt sequence refuting C4 as stated: a 429, then a timeout, then a
success. -/
def c4Outcomes : Nat → AttemptOutcome := fun i =>
  if i == 0 then .http 429 none
  else if i == 1 then .timeout
  else .http 200 (some (.dict [("response", .list [])]))

/-- Counterexample to C4: after a 429 on attempt 0 and a timeout on
attempt 1, the wait before the next attempt is `2^1 = 2` seconds, not the
claimed `2^0 = 1` — the backoff exponent is the shared loop counter,
which the rate-limited attempt did advance. -/
theorem api_get_backoff_counterexample :
    (api_get c4Outcomes 3).sleeps = [60, 2] ∧
    (api_get c4Outcomes 3).sleeps ≠ [60, 1] := by
  refine ⟨rfl, ?_⟩
  intro h
  rw [show (api_get c4Outcomes 3).sleeps = [60, 2] from rfl] at h
  simp at h

/-- C4 amended: a rate-limited attempt pauses a fixed 60 seconds; a
timeout or transport failure before the final attempt waits `2^attempt`
seconds where `attempt` is the overall loop index, counting rate-limited
attempts as well — so a 429 followed by a timeout waits `2^1 = 2`
seconds. -/
theorem api_get_backoff_schedule :
    (∀ (outcomes : Nat → AttemptOutcome) (maxRetries attempt fuel : Nat)
        (b : Option Value),
      outcomes attempt = .http 429 b → 0 < fuel →
      (apiGetAux outcomes maxRetries attempt fuel).sleeps =
        60 :: (apiGetAux outcomes maxRetries (attempt + 1) (fuel - 1)).sleeps) ∧
    (∀ (outcomes : Nat → AttemptOutcome) (maxRetries attempt fuel : Nat),
      (outcomes attempt = .timeout ∨ outcomes attempt = .transportError) →
      0 < fuel → attempt < maxRetries - 1 →
      (apiGetAux outcomes maxRetries attempt fuel).sleeps =
        2 ^ attempt :: (apiGetAux outcomes maxRetries (attempt + 1) (fuel - 1)).sleeps) := by
  constructor
  · intro outcomes maxRetries attempt fuel b ho hf
    obtain ⟨n, rfl⟩ : ∃ n, fuel = n + 1 := ⟨fuel - 1, by omega⟩
    simp [apiGetAux, ho]
  · intro outcomes maxRetries attempt fuel ho hf hlast
    obtain ⟨n, rfl⟩ : ∃ n, fuel = n + 1 := ⟨fuel - 1, by omega⟩
    rcases ho with ho | ho <;> simp [apiGetAux, ho, hlast]

/-- Witness for the amended C4 at the counterexample's own sequence:
attempt 0 is rate-limited (60-second pause), attempt 1 times out and
waits `2^1` seconds. -/
theorem api_get_backoff_schedule_witness :
    (apiGetAux c4Outcomes 3 0 3).sleeps = 60 :: (apiGetAux c4Outcomes 3 1 2).sleeps ∧
    (apiGetAux c4Outcomes 3 1 2).sleeps = 2 ^ 1 :: (apiGetAux c4Outcomes 3 2 1).sleeps :=
  ⟨api_get_backoff_schedule.1 c4Outcomes 3 0 3 none rfl (by decide),
   api_get_backoff_schedule.2 c4Outcomes 3 1 2 (.inl rfl) (by decide) (by decide)⟩

/-- C5: when a transport-level attempt succeeds with a payload that lacks
a `response` field or carries a truthy `errors` field, `api_get` returns
`None` immediately: exactly one further attempt is used and no sleep
happens, no matter how much budget (`fuel`) remains. -/
theorem api_get_structural_failure (outcomes : Nat → AttemptOutcome)
    (maxRetries attempt fuel status : Nat) (fs : List (String × Value))
    (hf : 0 < fuel) (ho : outcomes attempt = .http status (some (.dict fs)))
    (hs : status < 400)
    (hbad : fs.lookup "response" = none ∨
      ∃ e, fs.lookup "errors" = some e ∧ e.truthy = true) :
    apiGetAux outcomes maxRetries attempt fuel =
      { result := none, attemptsUsed := 1, sleeps := [] } := by
  obtain ⟨n, rfl⟩ : ∃ n, fuel = n + 1 := ⟨fuel - 1, by omega⟩
  have h429 : (status == 429) = false := by
    simp only [beq_eq_false_iff_ne, ne_eq]
    omega
  have h400 : ¬ (400 ≤ status) := by omega
  simp only [apiGetAux, ho, h429, Bool.false_eq_true, if_false, h400]
  have : processBody (.dict fs) = none := by
    rcases hbad with hnone | ⟨e, he, ht⟩
    · simp [processBody, Value.containsStr, hnone]
    · cases hr : fs.lookup "response" with
      | none => simp [processBody, Value.containsStr, hr]
      | some r =>
        simp [processBody, Value.containsStr, hr, he, Value.getKey, ht]
  rw [this]

/-- Witness for C5: a payload whose `errors` field is a non-empty list is
rejected immediately with two budget units remaining. -/
theorem api_get_structural_failure_witness :
    apiGetAux (fun _ => .http 200 (some (.dict
        [("response", .list []), ("errors", .list [.str "token"])]))) 3 0 3 =
      { result := none, attemptsUsed := 1, sleeps := [] } :=
  api_get_structural_failure _ 3 0 3 200 _ (by decide) rfl (by decide)
    (.inr ⟨.list [.str "token"], rfl, rfl⟩)

/-- C8: each validator wraps its body in a blanket `try/except`, so it is
a total boolean function of its input and any internal error (wrong cell
types, a non-DataFrame argument, and so on) yields the result `false`. -/
theorem validators_never_raise (inp : PyInput) :
    (∀ e, validateStandingsBody inp = .error e → validate_standings inp = false) ∧
    (∀ e, validateTopScorersBody inp = .error e → validate_top_scorers inp = false) ∧
    (∀ e, validateTopAssistsBody inp = .error e → validate_top_assists inp = false) := by
  refine ⟨fun e h => ?_, fun e h => ?_, fun e h => ?_⟩
  · simp [validate_standings, exceptToBool, h]
  · simp [validate_top_scorers, exceptToBool, h]
  · simp [validate_top_assists, exceptToBool, h]

/-- A standings frame whose `points` column holds a string, so the
comparison `points < 0` raises `TypeError` inside the validation body. -/
def badTypesFrame : DataFrame :=
  ⟨["rank", "team", "points", "played", "wins", "draws", "losses"],
   [[.int 1, .str "Liverpool", .str "84", .int 38, .int 25, .int 9, .int 4]]⟩

/-- Witness for C8: the mistyped frame makes the standings body raise and
the validator return `false`; a non-DataFrame input does the same for the
scorers and assists validators. -/
theorem validators_never_raise_witness :
    validate_standings (.frame badTypesFrame) = false ∧
    validate_top_scorers .notFrame = false ∧
    validate_top_assists .notFrame = false :=
  ⟨(validators_never_raise (.frame badTypesFrame)).1
      (.type "comparison not supported") rfl,
   (validators_never_raise .notFrame).2.1
      (.attr "object has no attribute columns") rfl,
   (validators_never_raise .notFrame).2.2
      (.attr "object has no attribute columns") rfl⟩

/-- The frame on which C10's uniformity statement fails: a pre-existing
`exported_at` column with two different instants. -/
def preStampedFrame : DataFrame :=
  ⟨["player", "exported_at"], [[.str "a", .time 1], [.str "b", .time 2]]⟩

/-- Counterexample to C10: when the input already carries an
`exported_at` column, `overwrite` normalizes it cell by cell, so the
frame handed to the sink keeps two distinct `exported_at` values — the
exported value is not uniform across rows. -/
theorem overwrite_uniform_counterexample :
    (overwrite preStampedFrame 5 true).sink = some preStampedFrame ∧
    preStampedFrame.getCol "exported_at" = .ok [.time 1, .time 2] ∧
    Value.time 1 ≠ Value.time 2 := by
  refine ⟨rfl, rfl, fun h => ?_⟩
  injection h with h'
  exact absurd h' (by decide)

/-- C10 amended: `overwrite` never mutates the caller's frame (both
branches copy first), returns the sink transaction's outcome, and hands
the sink the copy with exactly one `exported_at` column: a fresh column
whose value is the single instant `now` in every row when the input
lacked one, and the cell-wise normalization of the existing column (not
necessarily uniform) when it was present. -/
theorem overwrite_frame_effect (df : DataFrame) (now : Int) (sinkOk : Bool) :
    (overwrite df now sinkOk).callerFrame = df ∧
    (overwrite df now sinkOk).ret = sinkOk ∧
    (overwrite df now sinkOk).sink =
      (if sinkOk then some (exportFrame df now) else none) ∧
    (colIndex df "exported_at" = none →
      (exportFrame df now).colNames = df.colNames ++ ["exported_at"] ∧
      (exportFrame df now).rows = df.rows.map (fun r => r ++ [.time now])) ∧
    (∀ i, colIndex df "exported_at" = some i →
      (exportFrame df now).colNames = df.colNames ∧
      (exportFrame df now).rows =
        df.rows.map (fun r => r.set i (normalizeTs (r.getD i .null)))) := by
  refine ⟨?_, ?_, ?_, fun h => ?_, fun i h => ?_⟩
  · cases sinkOk <;> rfl
  · cases sinkOk <;> rfl
  · cases sinkOk <;> rfl
  · constructor <;> simp [exportFrame, h, setColScalar]
  · constructor <;> simp [exportFrame, h, mapColCells]

/-- Witness for C10's amended statement: a fresh frame gains a uniform
timestamp column, and the caller's frame is returned unchanged. -/
theorem overwrite_frame_effect_witness :
    (overwrite ⟨["a"], [[.int 1], [.int 2]]⟩ 7 true).callerFrame =
      ⟨["a"], [[.int 1], [.int 2]]⟩ ∧
    (exportFrame ⟨["a"], [[.int 1], [.int 2]]⟩ 7).rows =
      [[.int 1, .time 7], [.int 2, .time 7]] := by
  have h := overwrite_frame_effect ⟨["a"], [[.int 1], [.int 2]]⟩ 7 true
  exact ⟨h.1, by rw [(h.2.2.2.1 rfl).2]; rfl⟩

/-- Success of one dataset: its fetch+parse produced a frame, the frame
passed validation, and the database write for its table succeeded. -/
def datasetSucceeds (fetched : Except PyErr DataFrame) (validate : PyInput → Bool)
    (env : PipelineEnv) (table : String) : Prop :=
  ∃ df, fetched = .ok df ∧ validate (.frame df) = true ∧ env.sinkOk table = true

/-- One dataset block returns `true` exactly when the dataset succeeds. -/
theorem processDataset_eq_true (env : PipelineEnv) (fetched : Except PyErr DataFrame)
    (validate : PyInput → Bool) (table : String) :
    (processDataset env fetched validate table = true ↔
      datasetSucceeds fetched validate env table) := by
  cases fetched with
  | error e => simp [processDataset, datasetSucceeds]
  | ok df =>
    by_cases hv : validate (.frame df) = true
    · cases hs : env.sinkOk table <;>
        simp [processDataset, datasetSucceeds, hv, overwrite, hs]
    · simp [processDataset, datasetSucceeds, hv]

/-- C9: the pipeline reports `true` exactly when all three datasets
succeed at fetch+parse, validation and export; with a working engine
every dataset block runs regardless of the other datasets' outcomes;
an engine failure returns `false` with no dataset processed; and the
process exit code is 0 exactly when the pipeline reports `true`. -/
theorem run_pipeline_correct (env : PipelineEnv) :
    ((run_pipeline env).1 = true ↔
      env.engineOk = true ∧
      datasetSucceeds (get_standings env.standingsApi) validate_standings
        env "epl_standings" ∧
      datasetSucceeds (get_top_scorers env.scorersApi) validate_top_scorers
        env "epl_top_scorers" ∧
      datasetSucceeds (get_top_assists env.assistsApi) validate_top_assists
        env "epl_top_assists") ∧
    (env.engineOk = true → (run_pipeline env).2 = ["standings", "scorers", "assists"]) ∧
    (env.engineOk = false → run_pipeline env = (false, [])) ∧
    (pipelineExitCode env = 0 ↔ (run_pipeline env).1 = true) := by
  have hexit : pipelineExitCode env = 0 ↔ (run_pipeline env).1 = true := by
    unfold pipelineExitCode
    cases h : (run_pipeline env).1 <;> simp [h]
  cases he : env.engineOk with
  | false =>
    refine ⟨?_, by simp [he], fun _ => by simp [run_pipeline, he], hexit⟩
    simp [run_pipeline, he]
  | true =>
    refine ⟨?_, fun _ => by simp [run_pipeline, he], by simp [he], hexit⟩
    simp [run_pipeline, he, Bool.and_eq_true, processDataset_eq_true, and_assoc]

/-- An environment in which every stage of every dataset succeeds. -/
def goodEnv : PipelineEnv :=
  { engineOk := true
    standingsApi := some (.list [.dict [("league", .dict [("standings", .list [.list [
        .dict [("rank", .int 1), ("team", .dict [("name", .str "Liverpool")]),
               ("points", .int 84),
               ("all", .dict [("played", .int 38), ("win", .int 25), ("draw", .int 9),
                              ("lose", .int 4),
                              ("goals", .dict [("for", .int 86), ("against", .int 41)])]),
               ("goalsDiff", .int 45)]]])])]])
    scorersApi := some (.list [.dict [("player", .dict [("name", .str "Salah")]),
        ("statistics", .list [.dict [("team", .dict [("name", .str "Liverpool")]),
           ("goals", .dict [("total", .int 29)]),
           ("games", .dict [("appearences", .int 38)])]])]])
    assistsApi := some (.list [.dict [("player", .dict [("name", .str "Salah")]),
        ("statistics", .list [.dict [("team", .dict [("name", .str "Liverpool")]),
           ("goals", .dict [("assists", .int 18)]),
           ("games", .dict [("appearences", .int 38)])]])]])
    now := 0
    sinkOk := fun _ => true }

/-- Witness for C9: in `goodEnv` all three datasets succeed, the pipeline
reports `true` and the process exits with code 0. -/
theorem run_pipeline_correct_witness :
    (run_pipeline goodEnv).1 = true ∧ pipelineExitCode goodEnv = 0 := by
  have h := run_pipeline_correct goodEnv
  have h1 : (run_pipeline goodEnv).1 = true :=
    h.1.mpr ⟨rfl, ⟨_, rfl, rfl, rfl⟩, ⟨_, rfl, rfl, rfl⟩, ⟨_, rfl, rfl, rfl⟩⟩
  exact ⟨h1, h.2.2.2.mpr h1⟩

/-- Bind on `Except` applied to a success. -/
theorem except_bind_ok {ε α β : Type} (a : α) (f : α → Except ε β) :
    (Except.ok a >>= f) = f a := rfl

/-- Bind on `Except` applied to a failure. -/
theorem except_bind_error {ε α β : Type} (e : ε) (f : α → Except ε β) :
    ((Except.error e : Except ε α) >>= f) = .error e := rfl

/-- Success of a bind splits into successes of both stages. -/
theorem except_bind_eq_ok {ε α β : Type} {x : Except ε α} {f : α → Except ε β} {b : β} :
    (x >>= f) = .ok b ↔ ∃ a, x = .ok a ∧ f a = .ok b := by
  cases x <;> simp [except_bind_error, except_bind_ok]

/-- The extraction path of the target metric of a player record,
`p["statistics"][0]["goals"][metric]`. -/
def playerMetricPath (metric : String) (p : Value) : Except PyErr Value := do
  let stats ← (← p.getKey "statistics").getIdx 0
  (← stats.getKey "goals").getKey metric

/-- The extraction path of the appearance count of a player record,
`p["statistics"][0]["games"]["appearences"]`. -/
def playerAppsPath (p : Value) : Except PyErr Value := do
  let stats ← (← p.getKey "statistics").getIdx 0
  (← stats.getKey "games").getKey "appearences"

/-- A record whose target metric is null is skipped, not turned into a
row. -/
theorem playerRecord_none_of_null (metric : String) (p : Value)
    (h : playerMetricPath metric p = .ok .null) :
    playerRecord metric p = .ok none := by
  simp only [playerMetricPath, except_bind_eq_ok] at h
  obtain ⟨sv, h1, stats, h2, gv, h3, h4⟩ := h
  simp [playerRecord, h1, h2, h3, h4, except_bind_ok, pure, Except.pure]

/-- C7: a player record whose `goals.total` (for scorers) or
`goals.assists` (for assists) is null is omitted from the parsed rows —
the loop skips it and the surviving rows are those of the remaining
records; and a record that does make it into the table with a null
appearance count gets `appearances` defaulted to 0 by `or 0`. -/
theorem parsers_null_handling :
    (∀ (p : Value) (ps : List Value),
      playerMetricPath "total" p = .ok .null →
      scorerStep p = .skip ∧
      collectRows scorerStep (p :: ps) = collectRows scorerStep ps) ∧
    (∀ (p : Value) (ps : List Value),
      playerMetricPath "assists" p = .ok .null →
      assistStep p = .skip ∧
      collectRows assistStep (p :: ps) = collectRows assistStep ps) ∧
    (∀ (metric : String) (p : Value) (r : List Value),
      playerAppsPath p = .ok .null →
      playerRecord metric p = .ok (some r) →
      r.getD 3 .null = .int 0) := by
  refine ⟨fun p ps h => ?_, fun p ps h => ?_, fun metric p r ha hr => ?_⟩
  · have hs : scorerStep p = .skip := by
      simp [scorerStep, playerRecord_none_of_null "total" p h]
    exact ⟨hs, by simp [collectRows, hs]⟩
  · have hs : assistStep p = .skip := by
      simp [assistStep, playerRecord_none_of_null "assists" p h]
    exact ⟨hs, by simp [collectRows, hs]⟩
  · simp only [playerAppsPath, except_bind_eq_ok] at ha
    obtain ⟨sv, h1, stats, h2, gm, h3, h4⟩ := ha
    simp only [playerRecord, h1, h2, except_bind_ok, except_bind_eq_ok] at hr
    obtain ⟨gv, h5, target, htv, hr⟩ := hr
    rcases target with _ | b | n | s | t | xs | fs <;>
      first
        | (simp only [except_bind_eq_ok] at hr
           obtain ⟨pv, _, pn, _, tv, _, tn, _, gm2, h3b, apps, h4b, hr⟩ := hr
           rw [h3] at h3b
           injection h3b with h3c
           subst h3c
           rw [h4] at h4b
           injection h4b with h4c
           subst h4c
           simp only [pure, Except.pure, Except.ok.injEq, Option.some.injEq] at hr
           subst hr
           rfl)
        | simp [pure, Except.pure] at hr

/-- A player record whose `goals.total` and `goals.assists` are null. -/
def nullMetricRecord : Value :=
  .dict [("player", .dict [("name", .str "A")]),
         ("statistics", .list [.dict [("team", .dict [("name", .str "T")]),
            ("goals", .dict [("total", .null), ("assists", .null)]),
            ("games", .dict [("appearences", .int 10)])]])]

/-- A player record with goals present but a null appearance count. -/
def nullAppsRecord : Value :=
  .dict [("player", .dict [("name", .str "B")]),
         ("statistics", .list [.dict [("team", .dict [("name", .str "T")]),
            ("goals", .dict [("total", .int 3)]),
            ("games", .dict [("appearences", .null)])]])]

/-- Witness for C7: the null-goals record is skipped by both loops and a
null appearance count comes out as 0 in the parsed row. -/
theorem parsers_null_handling_witness :
    scorerStep nullMetricRecord = .skip ∧
    assistStep nullMetricRecord = .skip ∧
    ([Value.str "B", Value.str "T", Value.int 3, Value.int 0] : List Value).getD 3 .null =
      .int 0 :=
  ⟨(parsers_null_handling.1 nullMetricRecord [] rfl).1,
   (parsers_null_handling.2.1 nullMetricRecord [] rfl).1,
   parsers_null_handling.2.2 "total" nullAppsRecord
     [.str "B", .str "T", .int 3, .int 0] rfl rfl⟩

/-- C6: provided the payload is truthy, iterable, and no record raises an
uncaught exception, each parser fails with `ParseError` (`ValueError` in
the source) exactly when the surviving rows are empty, and returns the
non-empty table of surviving rows otherwise; moreover a missing key (or,
for the player parsers, a missing index) in one record only skips that
record, leaving the rest of the parse unchanged. -/
theorem parsers_fail_iff_no_rows :
    (∀ (d : Value) (items : List Value) (rows : List (List Value)),
      d.falsy = false → d.toIter = .ok items →
      collectRows scorerStep items = .ok rows →
      ((∃ m, get_top_scorers (some d) = .error (.value m)) ↔ rows = []) ∧
      (rows ≠ [] → get_top_scorers (some d) = .ok ⟨scorersCols, rows⟩)) ∧
    (∀ (d : Value) (items : List Value) (rows : List (List Value)),
      d.falsy = false → d.toIter = .ok items →
      collectRows assistStep items = .ok rows →
      ((∃ m, get_top_assists (some d) = .error (.value m)) ↔ rows = []) ∧
      (rows ≠ [] → get_top_assists (some d) = .ok ⟨assistsCols, rows⟩)) ∧
    (∀ (d probe table : Value) (items : List Value) (rows : List (List Value)),
      d.falsy = false → standingsProbe d = .ok probe → probe.falsy = false →
      standingsTable d = .ok table → table.falsy = false →
      table.toIter = .ok items → collectRows standingsStep items = .ok rows →
      ((∃ m, get_standings (some d) = .error (.value m)) ↔ rows = []) ∧
      (rows ≠ [] → get_standings (some d) = .ok ⟨standingsCols, rows⟩)) ∧
    (∀ (t : Value) (ts : List Value) (k : String),
      standingsRecord t = .error (.key k) →
      standingsStep t = .skip ∧
      collectRows standingsStep (t :: ts) = collectRows standingsStep ts) ∧
    (∀ (p : Value) (ps : List Value) (e : PyErr),
      playerRecord "total" p = .error e → (e = .idx ∨ ∃ k, e = .key k) →
      scorerStep p = .skip ∧
      collectRows scorerStep (p :: ps) = collectRows scorerStep ps) ∧
    (∀ (p : Value) (ps : List Value) (e : PyErr),
      playerRecord "assists" p = .error e → (e = .idx ∨ ∃ k, e = .key k) →
      assistStep p = .skip ∧
      collectRows assistStep (p :: ps) = collectRows assistStep ps) := by
  have hplayers : ∀ (step : Value → RecOutcome) (cols : List String)
      (m1 m2 : String) (d : Value) (items : List Value) (rows : List (List Value)),
      d.falsy = false → d.toIter = .ok items → collectRows step items = .ok rows →
      ((∃ m, playersParse step cols m1 m2 (some d) = .error (.value m)) ↔ rows = []) ∧
      (rows ≠ [] → playersParse step cols m1 m2 (some d) = .ok ⟨cols, rows⟩) := by
    intro step cols m1 m2 d items rows hf hiter hcollect
    have hred : playersParse step cols m1 m2 (some d) =
        if rows.isEmpty then .error (.value m2) else .ok ⟨cols, rows⟩ := by
      simp [playersParse, hf, hiter, hcollect]
    by_cases hrows : rows = []
    · subst hrows
      refine ⟨⟨fun _ => rfl, fun _ => ⟨m2, by simp [hred]⟩⟩, fun hne => absurd rfl hne⟩
    · have hne : rows.isEmpty = false := by
        simp [List.isEmpty_iff, hrows]
      rw [hne] at hred
      simp only [Bool.false_eq_true, if_false] at hred
      refine ⟨⟨fun ⟨m, hm⟩ => ?_, fun h => absurd h hrows⟩, fun _ => hred⟩
      rw [hred] at hm
      exact absurd hm (by simp)
  refine ⟨fun d => hplayers scorerStep scorersCols _ _ d,
          fun d => hplayers assistStep assistsCols _ _ d,
          ?_, fun t ts k h => ?_, fun p ps e h he => ?_, fun p ps e h he => ?_⟩
  · intro d probe table items rows hf hprobe hpf htable htf hiter hcollect
    have hred : get_standings (some d) =
        if rows.isEmpty then .error (.value "No valid team data parsed")
        else .ok ⟨standingsCols, rows⟩ := by
      simp [get_standings, hf, hprobe, hpf, htable, htf, hiter, hcollect]
    by_cases hrows : rows = []
    · subst hrows
      refine ⟨⟨fun _ => rfl,
        fun _ => ⟨"No valid team data parsed", by simp [hred]⟩⟩, fun hne => absurd rfl hne⟩
    · have hne : rows.isEmpty = false := by
        simp [List.isEmpty_iff, hrows]
      rw [hne] at hred
      simp only [Bool.false_eq_true, if_false] at hred
      refine ⟨⟨fun ⟨m, hm⟩ => ?_, fun h => absurd h hrows⟩, fun _ => hred⟩
      rw [hred] at hm
      exact absurd hm (by simp)
  · have hs : standingsStep t = .skip := by simp [standingsStep, h]
    exact ⟨hs, by simp [collectRows, hs]⟩
  · have hs : scorerStep p = .skip := by
      rcases he with rfl | ⟨k, rfl⟩ <;> simp [scorerStep, h]
    exact ⟨hs, by simp [collectRows, hs]⟩
  · have hs : assistStep p = .skip := by
      rcases he with rfl | ⟨k, rfl⟩ <;> simp [assistStep, h]
    exact ⟨hs, by simp [collectRows, hs]⟩

/-- A fully well-formed top-scorer record. -/
def salahRecord : Value :=
  .dict [("player", .dict [("name", .str "Salah")]),
         ("statistics", .list [.dict [("team", .dict [("name", .str "Liverpool")]),
            ("goals", .dict [("total", .int 29), ("assists", .int 18)]),
            ("games", .dict [("appearences", .int 38)])]])]

/-- Witness for C6: an empty-dict record is skipped (its key extraction
fails), one surviving record yields a non-empty table, and a payload with
only invalid records fails with the `ParseError` message. -/
theorem parsers_fail_iff_no_rows_witness :
    get_top_scorers (some (.list [.dict [], salahRecord])) =
      .ok ⟨scorersCols, [[.str "Salah", .str "Liverpool", .int 29, .int 38]]⟩ ∧
    (∃ m, get_top_scorers (some (.list [.dict []])) = .error (.value m)) ∧
    scorerStep (.dict []) = .skip := by
  refine ⟨?_, ?_, ?_⟩
  · exact (parsers_fail_iff_no_rows.1 (.list [.dict [], salahRecord])
      [.dict [], salahRecord]
      [[.str "Salah", .str "Liverpool", .int 29, .int 38]] rfl rfl rfl).2 (by simp)
  · exact (parsers_fail_iff_no_rows.1 (.list [.dict []]) [.dict []] [] rfl rfl rfl).1.mpr rfl
  · exact (parsers_fail_iff_no_rows.2.2.2.2.1 (.dict []) [] (.key "statistics") rfl
      (.inr ⟨_, rfl⟩)).1

/-- Selecting an absent column raises `KeyError`. -/
theorem getCol_err_of_not_mem (df : DataFrame) (c : String) (h : c ∉ df.colNames) :
    df.getCol c = .error (.key c) := by
  unfold DataFrame.getCol
  have hn : df.colNames.findIdx? (· == c) = none := by
    rw [List.findIdx?_eq_none_iff]
    intro x hx
    simp only [beq_eq_false_iff_ne, ne_eq]
    exact fun heq => h (heq ▸ hx)
  rw [hn]

/-- Selecting a present column succeeds. -/
theorem getCol_ok_of_mem (df : DataFrame) (c : String) (h : c ∈ df.colNames) :
    ∃ xs, df.getCol c = .ok xs := by
  unfold DataFrame.getCol
  cases hf : df.colNames.findIdx? (· == c) with
  | some i => exact ⟨_, rfl⟩
  | none =>
    rw [List.findIdx?_eq_none_iff] at hf
    have := hf c h
    simp at this

/-- A successful column selection means the column is present. -/
theorem mem_of_getCol_ok {df : DataFrame} {c : String} {xs : List Value}
    (h : df.getCol c = .ok xs) : c ∈ df.colNames := by
  by_contra hn
  rw [getCol_err_of_not_mem df c hn] at h
  exact absurd h (by simp)

/-- The `< m` comparison on an all-integer series. -/
theorem seriesMapE_lt (ns : List Int) (m : Int) :
    seriesMapE (fun v => pyLtInt v m) (ns.map Value.int) =
      .ok (ns.map fun n => decide (n < m)) := by
  induction ns with
  | nil => rfl
  | cons n ns ih =>
    have hf : pyLtInt (Value.int n) m = .ok (decide (n < m)) := rfl
    simp [seriesMapE, hf, ih]

/-- The `≤ m` comparison on an all-integer series. -/
theorem seriesMapE_le (ns : List Int) (m : Int) :
    seriesMapE (fun v => pyLeInt v m) (ns.map Value.int) =
      .ok (ns.map fun n => decide (n ≤ m)) := by
  induction ns with
  | nil => rfl
  | cons n ns ih =>
    have hf : pyLeInt (Value.int n) m = .ok (decide (n ≤ m)) := rfl
    simp [seriesMapE, hf, ih]

/-- Scalar multiplication on an all-integer series. -/
theorem seriesMapE_mul (ns : List Int) (m : Int) :
    seriesMapE (fun v => pyMulInt v m) (ns.map Value.int) =
      .ok ((ns.map (· * m)).map Value.int) := by
  induction ns with
  | nil => rfl
  | cons n ns ih =>
    have hf : pyMulInt (Value.int n) m = .ok (.int (n * m)) := rfl
    simp [seriesMapE, hf, ih, List.map_map]

/-- Addition of two all-integer series. -/
theorem seriesZipE_add (as bs : List Int) :
    seriesZipE pyAdd (as.map Value.int) (bs.map Value.int) =
      .ok ((List.zipWith (fun a b => a + b) as bs).map Value.int) := by
  induction as generalizing bs with
  | nil => rfl
  | cons a as ih =>
    cases bs with
    | nil => rfl
    | cons b bs => simp [seriesZipE, pyAdd, Value.toNum?, ih]

/-- Elementwise equality of two all-integer series is integer equality. -/
theorem zipWith_pyEq_int (as bs : List Int) :
    List.zipWith pyEq (as.map Value.int) (bs.map Value.int) =
      List.zipWith (fun a b => a == b) as bs := by
  induction as generalizing bs with
  | nil => rfl
  | cons a as ih =>
    cases bs with
    | nil => rfl
    | cons b bs => simp [pyEq, Value.toNum?, ih]

/-- An elementwise equality check over equally long lists holds exactly
when the lists are equal. -/
theorem all_zipWith_eq {as bs : List Int} (h : as.length = bs.length) :
    ((List.zipWith (fun a b => a == b) as bs).all id = true) ↔ as = bs := by
  induction as generalizing bs with
  | nil =>
    cases bs with
    | nil => simp
    | cons b bs => simp at h
  | cons a as ih =>
    cases bs with
    | nil => simp at h
    | cons b bs =>
      simp only [List.zipWith_cons_cons, List.all_cons, id_eq, Bool.and_eq_true,
        beq_iff_eq, List.cons.injEq]
      rw [ih (by simpa using h)]

/-- No element of a series is below `m` exactly when the `< m` mask has no
hit. -/
theorem anyLt_false (ns : List Int) (m : Int) :
    (((ns.map fun n => decide (n < m)).any id) = false) ↔ ∀ n ∈ ns, m ≤ n := by
  simp [List.any_eq_false, not_lt]

/-- No element of a series is at most `m` exactly when the `≤ m` mask has
no hit. -/
theorem anyLe_false (ns : List Int) (m : Int) :
    (((ns.map fun n => decide (n ≤ m)).any id) = false) ↔ ∀ n ∈ ns, m < n := by
  simp [List.any_eq_false, not_le]

/-- `Value.beq` on strings is string equality. -/
theorem beq_str_val (a b : String) : Value.beq (.str a) (.str b) = (a == b) := rfl

/-- The duplicate check on a string series decides `Nodup`. -/
theorem hasDup_map_str (names : List String) :
    hasDup (names.map Value.str) = false ↔ names.Nodup := by
  induction names with
  | nil => simp [hasDup]
  | cons a l ih =>
    simp only [List.map_cons, hasDup, Bool.or_eq_false_iff, List.nodup_cons, ih]
    have hany : ((l.map Value.str).any (fun y => Value.beq y (.str a)) = false) ↔ a ∉ l := by
      rw [List.any_eq_false]
      constructor
      · intro h hmem
        exact h (.str a) (List.mem_map_of_mem Value.str hmem) (by simp [beq_str_val])
      · rintro h x hx hbeq
        obtain ⟨b, hb, rfl⟩ := List.mem_map.mp hx
        rw [beq_str_val] at hbeq
        exact h (beq_iff_eq.mp hbeq ▸ hb)
    rw [hany]

/-- A required column that is absent makes the scorers/assists body return
`False` at the structural check. -/
theorem validateMetricBody_missing (required : List String) (metric : String)
    (df : DataFrame) (c : String) (hc : c ∈ required) (hnc : c ∉ df.colNames) :
    exceptToBool (validateMetricBody required metric (.frame df)) = false := by
  have hne : required.filter (fun c => !(df.colNames.contains c)) ≠ [] := by
    intro hnil
    rw [List.filter_eq_nil_iff] at hnil
    have := hnil c hc
    simp [hnc] at this
  have hie : (required.filter (fun c => !(df.colNames.contains c))).isEmpty = false := by
    cases hh : (required.filter (fun c => !(df.colNames.contains c))).isEmpty
    · rfl
    · rw [List.isEmpty_iff] at hh
      exact absurd hh hne
  have hbody : validateMetricBody required metric (.frame df) = .ok false := by
    simp only [validateMetricBody, hie]
    rfl
  simp [hbody, exceptToBool]

/-- Core of the scorers/assists validators on a well-typed frame. -/
theorem validateMetricBody_spec (required : List String) (metric : String)
    (df : DataFrame) (ms apps : List Int)
    (hreq : ∀ c ∈ required, c ∈ df.colNames)
    (hplayer : "player" ∈ df.colNames)
    (hms : df.getCol metric = .ok (ms.map Value.int))
    (happs : df.getCol "appearances" = .ok (apps.map Value.int)) :
    (exceptToBool (validateMetricBody required metric (.frame df)) = true ↔
      df.rows ≠ [] ∧ (∀ g ∈ ms, 0 ≤ g) ∧ (∀ a ∈ apps, 0 < a)) := by
  have hmiss : required.filter (fun c => !(df.colNames.contains c)) = [] := by
    rw [List.filter_eq_nil_iff]
    intro c hc
    simp [hreq c hc]
  obtain ⟨ps, hps⟩ := getCol_ok_of_mem df "player" hplayer
  by_cases hrows : df.rows = []
  · have hlen : (df.len == 0) = true := by simp [DataFrame.len, hrows]
    have hbody : validateMetricBody required metric (.frame df) = .ok false := by
      simp only [validateMetricBody, hmiss]
      simp [hlen]
    simp [hbody, exceptToBool, hrows]
  · have hlen : (df.len == 0) = false := by
      simp [DataFrame.len, hrows]
    by_cases hneg : ∀ g ∈ ms, 0 ≤ g
    · have hany : ((ms.map fun n => decide (n < 0)).any id) = false :=
        (anyLt_false ms 0).mpr hneg
      by_cases happ : ∀ a ∈ apps, 0 < a
      · have hany2 : ((apps.map fun n => decide (n ≤ 0)).any id) = false :=
          (anyLe_false apps 0).mpr happ
        have hbody : validateMetricBody required metric (.frame df) = .ok true := by
          simp only [validateMetricBody, hmiss]
          simp [hlen, hms, seriesMapE_lt, hany, happs, seriesMapE_le, hany2, hps]
        simp only [hbody, exceptToBool, true_iff]
        exact ⟨hrows, hneg, happ⟩
      · have hany2 : ((apps.map fun n => decide (n ≤ 0)).any id) = true := by
          cases hh : ((apps.map fun n => decide (n ≤ 0)).any id)
          · exact absurd ((anyLe_false apps 0).mp hh) happ
          · rfl
        have hbody : validateMetricBody required metric (.frame df) = .ok false := by
          simp only [validateMetricBody, hmiss]
          simp [hlen, hms, seriesMapE_lt, hany, happs, seriesMapE_le, hany2]
        simp [hbody, exceptToBool, happ]
    · have hany : ((ms.map fun n => decide (n < 0)).any id) = true := by
        cases hh : ((ms.map fun n => decide (n < 0)).any id)
        · exact absurd ((anyLt_false ms 0).mp hh) hneg
        · rfl
      have hbody : validateMetricBody required metric (.frame df) = .ok false := by
        simp only [validateMetricBody, hmiss]
        simp [hlen, hms, seriesMapE_lt, hany]
      simp [hbody, exceptToBool, hneg]

/-- C2: the scorers (resp. assists) validator accepts exactly the
non-empty well-typed tables with all required columns, a non-negative
metric everywhere and positive appearances everywhere; a missing required
column alone forces `false`; duplicate player names never matter (the
`player` column's contents are unconstrained); and the concrete Scenario
C table with `goals = -5` and `appearances = 0` is rejected. -/
theorem validate_metric_tables_correct :
    (∀ (df : DataFrame) (c : String), c ∈ scorersRequired → c ∉ df.colNames →
      validate_top_scorers (.frame df) = false) ∧
    (∀ (df : DataFrame) (c : String), c ∈ assistsRequired → c ∉ df.colNames →
      validate_top_assists (.frame df) = false) ∧
    (∀ (df : DataFrame) (goals apps : List Int),
      "player" ∈ df.colNames → "team" ∈ df.colNames →
      df.getCol "goals" = .ok (goals.map Value.int) →
      df.getCol "appearances" = .ok (apps.map Value.int) →
      (validate_top_scorers (.frame df) = true ↔
        df.rows ≠ [] ∧ (∀ g ∈ goals, 0 ≤ g) ∧ (∀ a ∈ apps, 0 < a))) ∧
    (∀ (df : DataFrame) (assists apps : List Int),
      "player" ∈ df.colNames → "team" ∈ df.colNames →
      df.getCol "assists" = .ok (assists.map Value.int) →
      df.getCol "appearances" = .ok (apps.map Value.int) →
      (validate_top_assists (.frame df) = true ↔
        df.rows ≠ [] ∧ (∀ g ∈ assists, 0 ≤ g) ∧ (∀ a ∈ apps, 0 < a))) ∧
    validate_top_scorers
      (.frame ⟨scorersCols, [[.str "X", .str "T", .int (-5), .int 0]]⟩) = false := by
  refine ⟨fun df c hc hnc => validateMetricBody_missing _ _ df c hc hnc,
    fun df c hc hnc => validateMetricBody_missing _ _ df c hc hnc,
    fun df goals apps hp ht hg ha => ?_,
    fun df assists apps hp ht hg ha => ?_, by rfl⟩
  · exact validateMetricBody_spec scorersRequired "goals" df goals apps
      (by
        intro c hc
        simp only [scorersRequired, List.mem_cons, List.not_mem_nil, or_false] at hc
        rcases hc with rfl | rfl | rfl | rfl
        · exact hp
        · exact ht
        · exact mem_of_getCol_ok hg
        · exact mem_of_getCol_ok ha
        ) hp hg ha
  · exact validateMetricBody_spec assistsRequired "assists" df assists apps
      (by
        intro c hc
        simp only [assistsRequired, List.mem_cons, List.not_mem_nil, or_false] at hc
        rcases hc with rfl | rfl | rfl | rfl
        · exact hp
        · exact ht
        · exact mem_of_getCol_ok hg
        · exact mem_of_getCol_ok ha
        ) hp hg ha

/-- A scorers table with a duplicated player name but valid metrics. -/
def dupScorersFrame : DataFrame :=
  ⟨scorersCols, [[.str "S", .str "L", .int 29, .int 38],
                 [.str "S", .str "L", .int 22, .int 30]]⟩

/-- Witness for C2: duplicate player names alone do not fail validation,
and a frame missing the `goals` column fails it. -/
theorem validate_metric_tables_correct_witness :
    validate_top_scorers (.frame dupScorersFrame) = true ∧
    validate_top_scorers (.frame ⟨["player"], []⟩) = false :=
  ⟨(validate_metric_tables_correct.2.2.1 dupScorersFrame [29, 22] [38, 30]
      (by decide) (by decide) rfl rfl).mpr
      ⟨by simp [dupScorersFrame], by decide, by decide⟩,
   validate_metric_tables_correct.1 ⟨["player"], []⟩ "goals" (by decide) (by decide)⟩

/-- The row count of any successfully selected column. -/
theorem getCol_length {df : DataFrame} {c : String} {xs : List Value}
    (h : df.getCol c = .ok xs) : xs.length = df.rows.length := by
  unfold DataFrame.getCol at h
  cases hf : df.colNames.findIdx? (· == c) with
  | none => rw [hf] at h; exact absurd h (by simp)
  | some i =>
    rw [hf] at h
    injection h with h'
    rw [← h']
    simp

/-- A required standings column that is absent forces `false`. -/
theorem validateStandingsBody_missing (df : DataFrame) (c : String)
    (hc : c ∈ standingsRequired) (hnc : c ∉ df.colNames) :
    validate_standings (.frame df) = false := by
  have hne : standingsRequired.filter (fun c => !(df.colNames.contains c)) ≠ [] := by
    intro hnil
    rw [List.filter_eq_nil_iff] at hnil
    have := hnil c hc
    simp [hnc] at this
  have hie : (standingsRequired.filter (fun c => !(df.colNames.contains c))).isEmpty
      = false := by
    cases hh : (standingsRequired.filter (fun c => !(df.colNames.contains c))).isEmpty
    · rfl
    · rw [List.isEmpty_iff] at hh
      exact absurd hh hne
  have hbody : validateStandingsBody (.frame df) = .ok false := by
    simp only [validateStandingsBody, hie]
    rfl
  simp [validate_standings, hbody, exceptToBool]

/-- Composition form of `seriesZipE_add` as produced by map fusion. -/
theorem seriesZipE_add_mulform (ws ds : List Int) :
    seriesZipE pyAdd (ws.map (Value.int ∘ (· * 3))) (ds.map Value.int) =
      .ok ((List.zipWith (fun w d => w * 3 + d) ws ds).map Value.int) := by
  rw [← List.map_map, seriesZipE_add, List.zipWith_map_left]

/-- The elementwise equality mask of two equally long integer series has a
`false` entry exactly when the series differ. -/
theorem false_mem_zipWith_pyEq {as bs : List Int} (h : as.length = bs.length) :
    (false ∈ List.zipWith (fun a b => pyEq (Value.int a) (Value.int b)) as bs) ↔
      as ≠ bs := by
  induction as generalizing bs with
  | nil =>
    cases bs with
    | nil => simp
    | cons b bs => simp at h
  | cons a as ih =>
    cases bs with
    | nil => simp at h
    | cons b bs =>
      have hpe : pyEq (Value.int a) (Value.int b) = (a == b) := rfl
      have hih := ih (show as.length = bs.length by simpa using h)
      simp only [List.zipWith_cons_cons, List.mem_cons, hpe, hih, List.cons.injEq]
      by_cases hab : a = b <;> simp [hab]

/-- Core of the standings validator on a well-typed frame. -/
theorem validateStandingsBody_spec (df : DataFrame) (team : List String)
    (pts pl ws ds ls : List Int)
    (hrank : "rank" ∈ df.colNames)
    (hteam : df.getCol "team" = .ok (team.map Value.str))
    (hpts : df.getCol "points" = .ok (pts.map Value.int))
    (hpl : df.getCol "played" = .ok (pl.map Value.int))
    (hws : df.getCol "wins" = .ok (ws.map Value.int))
    (hds : df.getCol "draws" = .ok (ds.map Value.int))
    (hls : df.getCol "losses" = .ok (ls.map Value.int)) :
    (validate_standings (.frame df) = true ↔
      team.Nodup ∧ (∀ p ∈ pts, 0 ≤ p) ∧
      pts = List.zipWith (fun w d => w * 3 + d) ws ds ∧
      pl = List.zipWith (fun wd l => wd + l)
        (List.zipWith (fun w d => w + d) ws ds) ls) := by
  have hmiss : standingsRequired.filter (fun c => !(df.colNames.contains c)) = [] := by
    rw [List.filter_eq_nil_iff]
    intro c hc
    simp only [standingsRequired, List.mem_cons, List.not_mem_nil, or_false] at hc
    rcases hc with rfl | rfl | rfl | rfl | rfl | rfl | rfl <;>
      simp [hrank, mem_of_getCol_ok hteam, mem_of_getCol_ok hpts, mem_of_getCol_ok hpl,
        mem_of_getCol_ok hws, mem_of_getCol_ok hds, mem_of_getCol_ok hls]
  have lpts : pts.length = df.rows.length := by simpa using getCol_length hpts
  have lpl : pl.length = df.rows.length := by simpa using getCol_length hpl
  have lws : ws.length = df.rows.length := by simpa using getCol_length hws
  have lds : ds.length = df.rows.length := by simpa using getCol_length hds
  have lls : ls.length = df.rows.length := by simpa using getCol_length hls
  have hlen1 : pts.length = (List.zipWith (fun w d => w * 3 + d) ws ds).length := by
    rw [List.length_zipWith]
    omega
  have hlen2 : pl.length = (List.zipWith (fun wd l => wd + l)
      (List.zipWith (fun w d => w + d) ws ds) ls).length := by
    rw [List.length_zipWith, List.length_zipWith]
    omega
  by_cases hnd : team.Nodup
  · have hdup : hasDup (team.map Value.str) = false := (hasDup_map_str team).mpr hnd
    by_cases hneg : ∀ p ∈ pts, 0 ≤ p
    · have hany : ((pts.map fun n => decide (n < 0)).any id) = false :=
        (anyLt_false pts 0).mpr hneg
      by_cases hpeq : pts = List.zipWith (fun w d => w * 3 + d) ws ds
      · have hmem1 : false ∉ List.zipWith (fun a b => pyEq (Value.int a) (Value.int b))
            pts (List.zipWith (fun w d => w * 3 + d) ws ds) := by
          rw [false_mem_zipWith_pyEq hlen1]
          simp [hpeq]
        by_cases hpleq : pl = List.zipWith (fun wd l => wd + l)
            (List.zipWith (fun w d => w + d) ws ds) ls
        · have hmem2 : false ∉ List.zipWith (fun a b => pyEq (Value.int a) (Value.int b))
              pl (List.zipWith (fun wd l => wd + l)
                (List.zipWith (fun w d => w + d) ws ds) ls) := by
            rw [false_mem_zipWith_pyEq hlen2]
            simp [hpleq]
          have hbody : validateStandingsBody (.frame df) = .ok true := by
            simp only [validateStandingsBody, hmiss]
            simp [hteam, hdup, hpts, seriesMapE_lt, hany, hws, hds, seriesMapE_mul,
              seriesZipE_add_mulform, seriesZipE_add, hls, hpl, hmem1, hmem2]
          simp only [validate_standings, hbody, exceptToBool, true_iff]
          exact ⟨hnd, hneg, hpeq, hpleq⟩
        · have hmem2 : false ∈ List.zipWith (fun a b => pyEq (Value.int a) (Value.int b))
              pl (List.zipWith (fun wd l => wd + l)
                (List.zipWith (fun w d => w + d) ws ds) ls) :=
            (false_mem_zipWith_pyEq hlen2).mpr hpleq
          have hbody : validateStandingsBody (.frame df) = .ok false := by
            simp only [validateStandingsBody, hmiss]
            simp [hteam, hdup, hpts, seriesMapE_lt, hany, hws, hds, seriesMapE_mul,
              seriesZipE_add_mulform, seriesZipE_add, hls, hpl, hmem1, hmem2]
          simp [validate_standings, hbody, exceptToBool, hpleq]
      · have hmem1 : false ∈ List.zipWith (fun a b => pyEq (Value.int a) (Value.int b))
            pts (List.zipWith (fun w d => w * 3 + d) ws ds) :=
          (false_mem_zipWith_pyEq hlen1).mpr hpeq
        have hbody : validateStandingsBody (.frame df) = .ok false := by
          simp only [validateStandingsBody, hmiss]
          simp [hteam, hdup, hpts, seriesMapE_lt, hany, hws, hds, seriesMapE_mul,
            seriesZipE_add_mulform, hmem1]
        simp [validate_standings, hbody, exceptToBool, hpeq]
    · have hany : ((pts.map fun n => decide (n < 0)).any id) = true := by
        cases hh : ((pts.map fun n => decide (n < 0)).any id)
        · exact absurd ((anyLt_false pts 0).mp hh) hneg
        · rfl
      have hbody : validateStandingsBody (.frame df) = .ok false := by
        simp only [validateStandingsBody, hmiss]
        simp [hteam, hdup, hpts, seriesMapE_lt, hany]
      simp [validate_standings, hbody, exceptToBool, hneg]
  · have hdup : hasDup (team.map Value.str) = true := by
      cases hh : hasDup (team.map Value.str)
      · exact absurd ((hasDup_map_str team).mp hh) hnd
      · rfl
    have hbody : validateStandingsBody (.frame df) = .ok false := by
      simp only [validateStandingsBody, hmiss]
      simp [hteam, hdup]
    simp [validate_standings, hbody, exceptToBool, hnd]

/-- C1: a standings table missing any of the required columns validates
to `false`; and on a table carrying the required columns with string team
names and integer numeric columns, `validate_standings` is `true` exactly
when team names are pairwise distinct, no points value is negative, every
row has `points = wins * 3 + draws`, and every row has
`played = wins + draws + losses`. The equivalence carries no condition on
the row count, so a row count other than 20 alone never forces `false`. -/
theorem validate_standings_correct :
    (∀ (df : DataFrame) (c : String), c ∈ standingsRequired → c ∉ df.colNames →
      validate_standings (.frame df) = false) ∧
    (∀ (df : DataFrame) (team : List String) (pts pl ws ds ls : List Int),
      "rank" ∈ df.colNames →
      df.getCol "team" = .ok (team.map Value.str) →
      df.getCol "points" = .ok (pts.map Value.int) →
      df.getCol "played" = .ok (pl.map Value.int) →
      df.getCol "wins" = .ok (ws.map Value.int) →
      df.getCol "draws" = .ok (ds.map Value.int) →
      df.getCol "losses" = .ok (ls.map Value.int) →
      (validate_standings (.frame df) = true ↔
        team.Nodup ∧ (∀ p ∈ pts, 0 ≤ p) ∧
        pts = List.zipWith (fun w d => w * 3 + d) ws ds ∧
        pl = List.zipWith (fun wd l => wd + l)
          (List.zipWith (fun w d => w + d) ws ds) ls)) :=
  ⟨validateStandingsBody_missing, validateStandingsBody_spec⟩

/-- A consistent two-team standings table (the row count 2 differs from
20, which only triggers a warning). -/
def smallStandingsFrame : DataFrame :=
  ⟨standingsCols,
   [[.int 1, .str "Liverpool", .int 84, .int 38, .int 25, .int 9, .int 4,
     .int 86, .int 41, .int 45],
    [.int 2, .str "Arsenal", .int 74, .int 38, .int 20, .int 14, .int 4,
     .int 91, .int 56, .int 35]]⟩

/-- Witness for C1: the two-team consistent table passes (despite not
having 20 rows) and a table missing `team` fails. -/
theorem validate_standings_correct_witness :
    validate_standings (.frame smallStandingsFrame) = true ∧
    validate_standings (.frame ⟨["rank"], []⟩) = false :=
  ⟨(validate_standings_correct.2 smallStandingsFrame ["Liverpool", "Arsenal"]
      [84, 74] [38, 38] [25, 20] [9, 14] [4, 4]
      (by decide) rfl rfl rfl rfl rfl rfl).mpr
      ⟨by decide, by decide, by decide, by decide⟩,
   validate_standings_correct.1 ⟨["rank"], []⟩ "team" (by decide) (by decide)⟩
